import Mathlib

/-!
Verification of the RAG retrieval/caching/monitoring pipeline of the
medical-portal repository (backend/apps/chat).  The Python sources
rag_cache.py, rag_monitor.py, services_advanced.py and
services_integrated.py are shallowly embedded below: pure functions become
Lean functions over rationals, lists and association structures; the Redis
key-value store and the metrics database become explicit state values;
external calls (vector index, reranker, generation model) become
environment fields; Python exceptions become Except values.
-/

namespace MedicalPortal

/-! ## Python string primitives

Queries and messages are modelled as lists of characters, mirroring
Python strings.  pyLower models str.lower, pyStrip models str.strip,
containsSub models the Python substring test (needle in haystack). -/

abbrev PyStr := List Char

def pyLower (s : PyStr) : PyStr := s.map Char.toLower

def pyStrip (s : PyStr) : PyStr :=
  ((s.dropWhile Char.isWhitespace).reverse.dropWhile Char.isWhitespace).reverse

/-- Test whether the needle occurs at the very start of the haystack. -/
def startsWith : PyStr → PyStr → Bool
  | [], _ => true
  | _ :: _, [] => false
  | a :: as, b :: bs => a = b && startsWith as bs

/-- Test whether the needle occurs anywhere inside the haystack
(Python membership test on strings). -/
def containsSub (needle : PyStr) : PyStr → Bool
  | [] => needle.isEmpty
  | b :: bs => startsWith needle (b :: bs) || containsSub needle bs

/-! ## Python min and max on rationals

Python min and max on two floats, used by calculate_confidence via
min(max(confidence, 0.0), 1.0).  Scores are embedded as rationals. -/

def pyMax (a b : ℚ) : ℚ := if a ≤ b then b else a

def pyMin (a b : ℚ) : ℚ := if b ≤ a then b else a

/-! ## Confidence estimator (services_advanced.py)

RetrievalResult embeds the dataclass of the same name (the wrapped
langchain Document is irrelevant to the scoring claims and is omitted;
only the two score fields take part in calculate_confidence).  mean and
variance embed np.mean and np.var (population variance). -/

structure RetrievalResult where
  relevance_score : ℚ
  rerank_score : Option ℚ := none
deriving Repr, DecidableEq

def mean (xs : List ℚ) : ℚ := xs.sum / xs.length

def variance (xs : List ℚ) : ℚ :=
  mean (xs.map (fun x => (x - mean xs) ^ 2))

/-- Embedding of the Python expression
(r.rerank_score or r.relevance_score): the or operator falls through to
relevance_score not only when rerank_score is None but also when it is
the (falsy) number 0.0. -/
def top_score (r : RetrievalResult) : ℚ :=
  match r.rerank_score with
  | some s => if s = 0 then r.relevance_score else s
  | none => r.relevance_score

/-- Embedding of AdvancedRAGService.calculate_confidence
(services_advanced.py, lines 304 to 324): mean of the top-3 scores times
one minus their variance, clamped into the unit interval; the variance
term is forced to 0 when fewer than two scores are present. -/
def calculate_confidence (results : List RetrievalResult) : ℚ :=
  if results = [] then 0
  else
    let top_scores := (results.take 3).map top_score
    let avg_top_score := mean top_scores
    let score_variance := if 1 < top_scores.length then variance top_scores else 0
    pyMin (pyMax (avg_top_score * (1 - score_variance)) 0) 1

/-- Modelled from the words of the spec (claim C2): the per-candidate
score is the rerank score whenever it is present, else the relevance
score.  This is the reading the claim asserts; it differs from the
source expression (top_score) when rerank_score is exactly 0. -/
def claimed_score (r : RetrievalResult) : ℚ :=
  match r.rerank_score with
  | some s => s
  | none => r.relevance_score

/-- Modelled from the words of the spec (claim C2): confidence is
mean(top3) * (1 - variance(top3)) clamped to the unit interval, with the
empty list giving exactly 0. -/
def confidence_claimed (results : List RetrievalResult) : ℚ :=
  if results = [] then 0
  else
    let top3 := (results.take 3).map claimed_score
    pyMin (pyMax (mean top3 * (1 - variance top3)) 0) 1

/-- Amended per-candidate score: rerank score when present and nonzero,
else relevance score.  This matches the Python truthiness test. -/
def amended_score (r : RetrievalResult) : ℚ :=
  match r.rerank_score with
  | some s => if s ≠ 0 then s else r.relevance_score
  | none => r.relevance_score

/-- Amended spec-side confidence: same formula as confidence_claimed but
with the amended per-candidate score, and with the mathematical variance
taken unconditionally. -/
def confidence_amended (results : List RetrievalResult) : ℚ :=
  if results = [] then 0
  else
    let top3 := (results.take 3).map amended_score
    pyMin (pyMax (mean top3 * (1 - variance top3)) 0) 1

theorem variance_singleton (x : ℚ) : variance [x] = 0 := by
  simp [variance, mean]

theorem top_score_eq_amended (r : RetrievalResult) : top_score r = amended_score r := by
  unfold top_score amended_score
  cases h : r.rerank_score with
  | none => rfl
  | some s =>
    by_cases hs : s = 0 <;> simp [hs]

theorem pyClamp_bounds (c : ℚ) : 0 ≤ pyMin (pyMax c 0) 1 ∧ pyMin (pyMax c 0) 1 ≤ 1 := by
  unfold pyMin pyMax
  split_ifs <;> constructor <;> linarith

theorem calculate_confidence_eq_amended (rs : List RetrievalResult) :
    calculate_confidence rs = confidence_amended rs := by
  have hs : top_score = amended_score := funext top_score_eq_amended
  match rs with
  | [] => rfl
  | [r] =>
    simp [calculate_confidence, confidence_amended, variance_singleton, hs]
  | r1 :: r2 :: t =>
    have h2 : 1 < ((((r1 :: r2 :: t).take 3).map top_score).length) := by
      simp [List.length_take]
    simp only [calculate_confidence, confidence_amended, hs, if_pos h2,
      List.ne_cons_self, if_neg, reduceCtorEq]
    simp [hs]

/-- Claim C2, counterexample: on a single candidate whose rerank score is
present but equal to 0.0, the Python expression
(r.rerank_score or r.relevance_score) falls through to the relevance
score (0.0 is falsy), so calculate_confidence returns 9/10 while the
formula stated in the claim (rerank score whenever present) returns 0. -/
theorem C2_counterexample :
    calculate_confidence [{ relevance_score := 9/10, rerank_score := some 0 }] ≠
      confidence_claimed [{ relevance_score := 9/10, rerank_score := some 0 }] := by
  norm_num [calculate_confidence, confidence_claimed, top_score, claimed_score,
    mean, variance, pyMin, pyMax]

/-- Claim C2 (amended): for every candidate list, calculate_confidence
returns mean(top3) * (1 - variance(top3)) clamped to the unit interval,
where top3 are the scores of the first three candidates taken as
rerank_score if present AND NONZERO, else relevance_score; the result
always lies in [0, 1], and for the empty candidate list it is exactly 0
(no error). -/
theorem C2_theorem :
    (∀ rs, calculate_confidence rs = confidence_amended rs) ∧
    (∀ rs, 0 ≤ calculate_confidence rs ∧ calculate_confidence rs ≤ 1) ∧
    calculate_confidence [] = 0 := by
  refine ⟨calculate_confidence_eq_amended, ?_, rfl⟩
  intro rs
  by_cases h : rs = []
  · simp [calculate_confidence, h]
  · simp only [calculate_confidence, if_neg h]
    exact pyClamp_bounds _

/-! ## Response cache (rag_cache.py)

The Redis database backing RAGCacheManager is embedded as explicit state.
A stored entry carries the JSON payload written by cache_response
together with its pending key expiration: setex installs an expiration,
plain set clears it (Redis SET without an expiration argument removes any
existing TTL from the key). -/

/-- Context dict passed to the cache (cancer type, stage, language). -/
abbrev CacheContext := List (String × String)

/-- The md5 preimage built by _generate_cache_key (rag_cache.py lines 126
to 134): json.dumps({query: query.lower().strip(), context: context or
\x7b\x7d}, sort_keys=True).  The md5 digest is a function of this
preimage, so every key equality asserted by the claims follows from
equality of the preimage; we therefore embed the key as the preimage
itself, with the context dict in its canonical (key-sorted) order. -/
structure CacheKeyData where
  query : PyStr
  context : CacheContext
deriving DecidableEq, Repr

/-- Canonical order of the context dict produced by json.dumps with
sort_keys=True. -/
def canonical_context (context : Option CacheContext) : CacheContext :=
  (context.getD []).insertionSort (fun a b => a.1 ≤ b.1)

/-- Embedding of RAGCacheManager._generate_cache_key (rag_cache.py lines
126 to 134). -/
def generate_cache_key (query : PyStr) (context : Option CacheContext) : CacheKeyData :=
  { query := pyStrip (pyLower query), context := canonical_context context }

/-- The response dict stored in (and returned from) the cache. -/
structure CachedResponse where
  content : String
  confidence : Option ℚ := none
  cache_type : Option String := none
deriving DecidableEq, Repr

/-- The JSON payload written by cache_response under a result key. -/
structure CacheData where
  query : PyStr
  response : CachedResponse
  cached_at : Nat
  ttl : Nat
  hits : Nat
deriving DecidableEq, Repr

/-- One Redis key under rag:query_results with its pending expiration:
some t means the key expires t seconds after the last expiration-setting
write, none means no expiration is pending. -/
structure StoredEntry where
  key : CacheKeyData
  data : CacheData
  expiry : Option Nat
deriving DecidableEq, Repr

/-- Redis GET on the result keys. -/
def redis_get (store : List StoredEntry) (k : CacheKeyData) : Option CacheData :=
  (store.find? (fun e => e.key = k)).map (·.data)

/-- Redis SET/SETEX on the result keys: overwrites the value if the key
exists (else creates it) and installs the given expiration; plain SET
corresponds to expiry = none, which clears any pending TTL. -/
def redis_set (store : List StoredEntry) (k : CacheKeyData) (d : CacheData)
    (expiry : Option Nat) : List StoredEntry :=
  if store.any (fun e => e.key = k) then
    store.map (fun e => if e.key = k then { key := k, data := d, expiry := expiry } else e)
  else store ++ [{ key := k, data := d, expiry := expiry }]

/-- Embedding of RAGCacheManager._get_exact_match (rag_cache.py lines 136
to 152).  On a hit the payload is re-written with hits incremented using
redis set WITHOUT an expiration argument, and the response part of the
payload is returned together with the updated store. -/
def get_exact_match (store : List StoredEntry) (k : CacheKeyData) :
    Option CachedResponse × List StoredEntry :=
  match redis_get store k with
  | some cache_data =>
      let updated := { cache_data with hits := cache_data.hits + 1 }
      (some updated.response, redis_set store k updated none)
  | none => (none, store)

/-! ### Claim C9: cache key determinism and normalization -/

/-- Claim C9 (confirmed): cache-key generation is deterministic, and two
queries with the same case-folded, whitespace-stripped text produce the
same key for every context.  Queries differing only in surrounding
whitespace or letter case satisfy the hypothesis, since lowering and
stripping erase exactly those differences. -/
theorem C9_theorem (q1 q2 : PyStr) (c : Option CacheContext)
    (h : pyStrip (pyLower q1) = pyStrip (pyLower q2)) :
    generate_cache_key q1 c = generate_cache_key q1 c ∧
    generate_cache_key q1 c = generate_cache_key q2 c := by
  refine ⟨rfl, ?_⟩
  unfold generate_cache_key
  rw [h]

/-- Claim C9, witness: two renderings of the same question differing in
case and surrounding whitespace get the same cache key. -/
theorem C9_witness :
    pyStrip (pyLower "  What is Chemotherapy ".toList) =
      pyStrip (pyLower "what is chemotherapy".toList) ∧
    generate_cache_key "  What is Chemotherapy ".toList (some [("cancer_type", "lung")]) =
      generate_cache_key "what is chemotherapy".toList (some [("cancer_type", "lung")]) :=
  have h : pyStrip (pyLower "  What is Chemotherapy ".toList) =
      pyStrip (pyLower "what is chemotherapy".toList) := by decide
  ⟨h, (C9_theorem _ _ (some [("cancer_type", "lung")]) h).2⟩

/-! ### Claim C8: exact-match hit behaviour -/

/-- Concrete store for claim C8: one freshly written entry with a pending
one-hour expiration. -/
def c8_key : CacheKeyData := { query := "what is chemotherapy".toList, context := [] }

def c8_entry : StoredEntry :=
  { key := c8_key,
    data := { query := "what is chemotherapy".toList,
              response := { content := "Chemotherapy is a cancer treatment." },
              cached_at := 100, ttl := 3600, hits := 0 },
    expiry := some 3600 }

/-- Claim C8 (code bug): on an exact-match hit the payload is indeed
unchanged except for the hit-count increment, but the re-write uses
plain SET, so the pending one-hour expiration of the key is cleared
(expiry becomes none): the TTL-based expiry is NOT preserved, and the
entry can afterwards be removed only by an eviction sweep. -/
theorem C8_theorem :
    (get_exact_match [c8_entry] c8_key).1 = some c8_entry.data.response ∧
    (get_exact_match [c8_entry] c8_key).2 =
      [{ c8_entry with data := { c8_entry.data with hits := 1 }, expiry := none }] ∧
    c8_entry.expiry = some 3600 := by
  refine ⟨?_, ?_, rfl⟩ <;> decide

/-! ### Claim C5: TTL assignment and query popularity -/

/-- One member of the rag:popular_queries sorted set (query text with its
occurrence count).  The set is embedded as a list in ascending score
order, which is the order redis zrange traverses. -/
structure ZEntry where
  member : PyStr
  score : Nat
deriving DecidableEq, Repr

def default_ttl : Nat := 3600

def popular_query_ttl : Nat := 86400

/-- Embedding of redis zrange(key, -n, -1): the n highest-scored members
of the sorted set. -/
def zrange_last (l : List ZEntry) (n : Nat) : List ZEntry := l.drop (l.length - n)

/-- Embedding of RAGCacheManager._is_popular_query (rag_cache.py lines
211 to 226): the call zrange(POPULAR_QUERIES_KEY, -100, -1) inspects only
the 100 highest-ranked tracked queries, and the normalized query counts
as popular when it is among them with a score above 10. -/
def is_popular_query (popular : List ZEntry) (query : PyStr) : Bool :=
  let query_lower := pyStrip (pyLower query)
  (zrange_last popular 100).any
    (fun e => decide (e.member = query_lower) && decide (10 < e.score))

/-- Embedding of RAGCacheManager._calculate_ttl (rag_cache.py lines 196
to 209).  The confidence is read with response.get("confidence", 0.5);
int(3600 * 1.5) = 5400 and int(3600 * 0.5) = 1800, both exact in floats. -/
def calculate_ttl (popular : List ZEntry) (query : PyStr) (response : CachedResponse) : Nat :=
  if is_popular_query popular query then popular_query_ttl
  else
    let confidence := response.confidence.getD (1/2)
    if 8/10 < confidence then 5400
    else if confidence < 1/2 then 1800
    else default_ttl

/-- Modelled from the words of the spec (claim C5): a query is popular
when it appeared more than 10 times among the tracked top-1000 queries
(the ranking structure retains at most 1000 members). -/
def is_popular_claimed (popular : List ZEntry) (query : PyStr) : Bool :=
  let query_lower := pyStrip (pyLower query)
  (zrange_last popular 1000).any
    (fun e => decide (e.member = query_lower) && decide (10 < e.score))

/-- Modelled from the words of the spec (claim C5): the TTL rule as the
claim states it, with popularity read over the tracked top-1000. -/
def ttl_claimed (popular : List ZEntry) (query : PyStr) (response : CachedResponse) : Nat :=
  if is_popular_claimed popular query then popular_query_ttl
  else
    let confidence := response.confidence.getD (1/2)
    if 8/10 < confidence then 5400
    else if confidence < 1/2 then 1800
    else default_ttl

/-- Popularity structure for the claim C5 counterexample: the query z has
score 11 (more than 10) but sits at rank 101 from the top, below 100
distinct queries of score 20, so zrange(-100, -1) never sees it. -/
def c5_popular : List ZEntry :=
  { member := ['z'], score := 11 } ::
    (List.range 100).map (fun i => { member := [Char.ofNat (1000 + i)], score := 20 })

def c5_response : CachedResponse := { content := "resp", confidence := some 1 }

/-- Claim C5, counterexample: the query z appeared 11 times (more than
10) among the tracked top-1000, so the claim assigns it the fixed
24-hour TTL; but _is_popular_query scans only the top-100, misses it,
and the code falls through to the confidence rule (confidence 1 gives
int(3600 * 1.5) = 5400, not 86400). -/
theorem C5_counterexample :
    calculate_ttl c5_popular ['z'] c5_response ≠ ttl_claimed c5_popular ['z'] c5_response := by
  have h1 : is_popular_query c5_popular ['z'] = false := by decide
  have h2 : is_popular_claimed c5_popular ['z'] = true := by decide
  norm_num [calculate_ttl, ttl_claimed, h1, h2, c5_response, popular_query_ttl]

/-- Claim C5 (amended): for every cache write, the assigned TTL is the
fixed popular-query TTL of 86400 seconds whenever the query is popular
in the sense of the code (appeared more than 10 times among the TOP-100
tracked queries), regardless of the confidence of the response;
otherwise 5400 seconds if confidence is above 0.8, 1800 seconds if below
0.5, else the base 3600 seconds, with a missing confidence field read as
0.5. -/
theorem C5_theorem (P : List ZEntry) (q : PyStr) (r1 r2 : CachedResponse) :
    (is_popular_query P q = true →
      calculate_ttl P q r1 = 86400 ∧ calculate_ttl P q r1 = calculate_ttl P q r2) ∧
    (is_popular_query P q = false →
      calculate_ttl P q r1 =
        (if 8/10 < r1.confidence.getD (1/2) then 5400
         else if r1.confidence.getD (1/2) < 1/2 then 1800 else 3600)) := by
  constructor
  · intro h
    simp [calculate_ttl, h, popular_query_ttl]
  · intro h
    simp [calculate_ttl, h, default_ttl]

/-- Claim C5, witness: with a single tracked query of score 11 the query
is popular (it is inside the top-100) and a confidence-1 response still
gets the 24-hour TTL; with the counterexample ranking the same query is
not popular and gets the confidence-scaled TTL. -/
theorem C5_witness :
    (is_popular_query [{ member := ['z'], score := 11 }] ['z'] = true ∧
      calculate_ttl [{ member := ['z'], score := 11 }] ['z'] c5_response = 86400) ∧
    (is_popular_query c5_popular ['z'] = false ∧
      calculate_ttl c5_popular ['z'] c5_response =
        (if 8/10 < c5_response.confidence.getD (1/2) then 5400
         else if c5_response.confidence.getD (1/2) < 1/2 then 1800 else 3600)) :=
  ⟨⟨by decide, ((C5_theorem [{ member := ['z'], score := 11 }] ['z'] c5_response c5_response).1
      (by decide)).1⟩,
   ⟨by decide, (C5_theorem c5_popular ['z'] c5_response c5_response).2 (by decide)⟩⟩

/-! ### Claim C4: eviction sweep -/

/-- The fields of a cached result entry that the eviction sweep reads:
its creation time and hit count. -/
structure EvictEntry where
  cached_at : Nat
  hits : Nat
deriving DecidableEq, Repr

/-- Ascending order on the Python sort key (cached_at, hits) used by
oldest_keys.sort in _evict_if_needed. -/
def evictOrder (a b : EvictEntry) : Prop :=
  a.cached_at < b.cached_at ∨ (a.cached_at = b.cached_at ∧ a.hits ≤ b.hits)

instance : DecidableRel evictOrder := fun a b => by
  unfold evictOrder; infer_instance

instance : IsTotal EvictEntry evictOrder :=
  ⟨by intro a b; unfold evictOrder; omega⟩

instance : IsTrans EvictEntry evictOrder :=
  ⟨by intro a b c; unfold evictOrder; omega⟩

/-- State of the Redis database backing the cache: the result entries
under rag:query_results plus the number of other keys living in the same
database (the query-embeddings hash, statistics keys, the popularity
ranking), all counted by redis dbsize but never collected by the sweep. -/
structure CacheDb where
  entries : List EvictEntry
  extra_keys : Nat
deriving Repr

def max_cache_size : Nat := 10000

def dbsize (db : CacheDb) : Nat := db.entries.length + db.extra_keys

/-- The entries deleted by one sweep: oldest_keys[:to_remove] with
to_remove = int(len(oldest_keys) * 0.1) (exact tenth, floored, for every
reachable size). -/
def evicted_entries (db : CacheDb) : List EvictEntry :=
  if max_cache_size < dbsize db then
    let sorted := db.entries.insertionSort evictOrder
    sorted.take (sorted.length / 10)
  else []

/-- Embedding of RAGCacheManager._evict_if_needed (rag_cache.py lines 246
to 271): when dbsize exceeds the maximum, the result entries are ordered
by (cached_at, hits) ascending and the first tenth (floored) of them is
deleted.  The retained entries are listed in sorted order; the store is
an unordered key-value database, so only the multiset of entries is
meaningful. -/
def evict_if_needed (db : CacheDb) : CacheDb :=
  if max_cache_size < dbsize db then
    let sorted := db.entries.insertionSort evictOrder
    { db with entries := sorted.drop (sorted.length / 10) }
  else db

/-- Database for the claim C4 counterexample: 11112 result entries and no
other keys. -/
def c4_db : CacheDb :=
  { entries := (List.range 11112).map (fun i => { cached_at := i, hits := 0 }), extra_keys := 0 }

theorem evict_size_eq (db : CacheDb) :
    dbsize (evict_if_needed db) =
      (if max_cache_size < dbsize db then dbsize db - db.entries.length / 10
       else dbsize db) := by
  unfold evict_if_needed
  split
  · simp only [dbsize, List.length_drop, List.length_insertionSort]
    omega
  · rfl

/-- Claim C4, counterexample: a sweep over 11112 entries removes only
int(11112 * 0.1) = 1111 of them, leaving 10001 entries, so the cache is
still above the configured maximum of 10000 after the sweep. -/
theorem C4_counterexample : max_cache_size < dbsize (evict_if_needed c4_db) := by
  have hlen : c4_db.entries.length = 11112 := by simp [c4_db]
  have hx : c4_db.extra_keys = 0 := rfl
  have hdb : dbsize c4_db = 11112 := by simp only [dbsize, hlen, hx]
  rw [evict_size_eq c4_db, hdb, hlen]
  norm_num [max_cache_size]

/-- Claim C4 (amended): a sweep triggered at dbsize above the maximum
removes exactly the lowest-ranked tenth (floored) of the result entries
ordered by (cached_at, hits) ascending, and no evicted entry is above a
retained entry in that order; the resulting size is within the maximum
only when the database held at most 11111 result entries (and nothing
else), not after every sweep. -/
theorem C4_theorem (db : CacheDb) :
    dbsize (evict_if_needed db) =
      (if max_cache_size < dbsize db then dbsize db - db.entries.length / 10
       else dbsize db) ∧
    (db.extra_keys = 0 → dbsize db ≤ 11111 →
      dbsize (evict_if_needed db) ≤ max_cache_size) ∧
    ((evicted_entries db).all
      (fun e => ((evict_if_needed db).entries).all
        (fun r => decide (evictOrder e r))) = true) := by
  refine ⟨evict_size_eq db, ?_, ?_⟩
  · intro hx hle
    have hmax : max_cache_size = 10000 := rfl
    have h0 : dbsize db = db.entries.length := by simp [dbsize, hx]
    rw [evict_size_eq db]
    by_cases hc : max_cache_size < dbsize db
    · rw [if_pos hc]; omega
    · rw [if_neg hc]; omega
  · unfold evicted_entries evict_if_needed
    split
    · simp only [List.all_eq_true, decide_eq_true_eq]
      intro e he r hr
      exact (List.sorted_insertionSort evictOrder db.entries).rel_of_mem_take_of_mem_drop he hr
    · simp

/-- Claim C4, witness: the spec example of a cache at 10050 entries: the
sweep is triggered, removes 1005 entries, and the resulting size 9045 is
within the maximum. -/
def c4w_db : CacheDb :=
  { entries := (List.range 10050).map (fun i => { cached_at := i, hits := i }), extra_keys := 0 }

theorem C4_witness :
    c4w_db.extra_keys = 0 ∧ dbsize c4w_db ≤ 11111 ∧
    dbsize (evict_if_needed c4w_db) ≤ max_cache_size :=
  ⟨rfl, by simp [dbsize, c4w_db], (C4_theorem c4w_db).2.1 rfl (by simp [dbsize, c4w_db])⟩

/-! ## Monitor (rag_monitor.py)

The RAGMetrics table is embedded as a list of records keyed by query_id.
Only the columns read or written by the feedback path are carried; the
other persisted columns (durations, counts, confidence, cache flags) are
never touched by record_user_feedback and are subsumed in query_text for
the frame property. -/

structure MetricRecord where
  query_id : String
  query_text : String
  user_rating : Option Nat := none
  user_feedback : Option String := none
deriving DecidableEq, Repr

inductive MetricsError
  | metricsNotFound
deriving DecidableEq, Repr

/-- Embedding of RAGMonitor.record_user_feedback (rag_monitor.py lines
325 to 337).  The Django lookup RAGMetrics.objects.get raises
DoesNotExist for an unknown query_id, but the method catches that
exception and only writes a log line: the call returns normally and
leaves the metrics store untouched.  The Except result type records
whether an exception escapes the call. -/
def record_user_feedback (db : List MetricRecord) (query_id : String) (rating : Nat)
    (feedback : Option String) : Except MetricsError (List MetricRecord) :=
  match db.find? (fun m => m.query_id = query_id) with
  | some _ =>
      .ok (db.map (fun m =>
        if m.query_id = query_id then
          { m with user_rating := some rating, user_feedback := feedback }
        else m))
  | none => .ok db

/-- Claim C1, counterexample: record_user_feedback on an unknown query_id
returns normally with the store unchanged (the DoesNotExist branch is
caught and only logged); it does not raise MetricsNotFound. -/
theorem C1_counterexample :
    record_user_feedback [] "nonexistent-id" 5 (some "great") ≠
      Except.error MetricsError.metricsNotFound ∧
    record_user_feedback [] "nonexistent-id" 5 (some "great") = Except.ok [] := by
  constructor
  · intro h
    exact Except.noConfusion ((rfl :
      record_user_feedback [] "nonexistent-id" 5 (some "great") =
        Except.ok []).symm.trans h)
  · rfl

/-- Claim C1 (amended): for every call record_user_feedback(query_id,
rating, comment) where no metrics record with that query_id exists, the
call does NOT raise: the lookup failure is caught inside the method and
only logged, the call returns normally, and no metrics record is created
or altered. -/
theorem C1_theorem (db : List MetricRecord) (query_id : String) (rating : Nat)
    (feedback : Option String)
    (h : db.find? (fun m => m.query_id = query_id) = none) :
    record_user_feedback db query_id rating feedback = Except.ok db := by
  unfold record_user_feedback
  rw [h]

/-- Claim C1, witness: a store holding one metrics record, asked to
attach feedback to a different query_id, is returned unchanged. -/
theorem C1_witness :
    ([⟨"q-1", "what is chemotherapy", none, none⟩] : List MetricRecord).find?
      (fun m => m.query_id = "nonexistent-id") = none ∧
    record_user_feedback [⟨"q-1", "what is chemotherapy", none, none⟩]
      "nonexistent-id" 5 (some "great") =
      Except.ok [⟨"q-1", "what is chemotherapy", none, none⟩] :=
  ⟨by decide, C1_theorem [⟨"q-1", "what is chemotherapy", none, none⟩]
    "nonexistent-id" 5 (some "great") (by decide)⟩

/-! ## Pipeline (services_advanced.py and services_integrated.py)

External calls (the vector index, the reranking model, the generation
model, the shared response cache) are embedded as environment fields;
the pipeline itself is the pure control flow of
IntegratedChatService.generate_response. -/

def emergency_keywords : List PyStr :=
  ["emergency".toList, "urgent".toList, "chest pain".toList, "severe pain".toList,
   "trouble breathing".toList, "heart attack".toList, "suicide".toList, "bleeding".toList,
   "hemorrhage".toList, "unconscious".toList, "911".toList, "help me".toList,
   "need help now".toList, "stroke".toList, "seizure".toList]

/-- Embedding of AdvancedRAGService.is_emergency_message
(services_advanced.py lines 476 to 485); the Python set iteration order
is irrelevant because any is order-insensitive. -/
def is_emergency_message (message : PyStr) : Bool :=
  let message_lower := pyLower message
  emergency_keywords.any (fun keyword => containsSub keyword message_lower)

def retrieval_k : Nat := 20

def rerank_k : Nat := 5

def confidence_threshold : ℚ := 7/10

/-- A chunk returned by the vector retriever; the source metadata field
is the deduplication identity used by hybrid_search. -/
structure RetrievedDoc where
  source : String
deriving DecidableEq, Repr

/-- Environment of one hybrid_search call: the Django local-cache line
for the query (the rag_query_(md5) key), the expanded query list
produced by expand_query (which degrades internally to the original
query alone when the LLM call errors, so it is never empty in the
source), and the vector index, which either returns documents or raises
(unreachable or timed out). -/
structure SearchEnv where
  local_cache : Option (List RetrievalResult)
  expanded_queries : List PyStr
  index : PyStr → Except Unit (List RetrievedDoc)

/-- One step of the deduplication loop of hybrid_search: ensure the
document identity is present in all_docs, then append the mock
similarity 0.8 - 0.1 * (number of observations so far). -/
def add_doc (all_docs : List (String × RetrievedDoc × List ℚ)) (doc : RetrievedDoc) :
    List (String × RetrievedDoc × List ℚ) :=
  let ensured :=
    if (all_docs.find? (fun p => p.1 = doc.source)).isSome then all_docs
    else all_docs ++ [(doc.source, doc, ([] : List ℚ))]
  ensured.map (fun p =>
    if p.1 = doc.source then
      (p.1, p.2.1, p.2.2 ++ [8/10 - (p.2.2.length : ℚ) * (1/10)])
    else p)

/-- Embedding of AdvancedRAGService.hybrid_search (services_advanced.py
lines 218 to 276).  The Django cache line short-circuits everything.
Otherwise every expanded query is sent to the vector index WITHOUT any
try/except: the first failing index call propagates out of the function.
On success the per-document similarity observations are averaged, the
candidates are sorted descending by relevance_score and truncated to
retrieval_k.  The write-back of the result into the Django local cache
only feeds later calls (the local_cache field of a later environment)
and is not part of the returned value. -/
def hybrid_search (env : SearchEnv) (query : PyStr) :
    Except Unit (List RetrievalResult) :=
  match env.local_cache with
  | some cached_results => .ok cached_results
  | none => do
      let all_docs ← env.expanded_queries.foldlM
        (fun acc exp_query => do
          let docs ← env.index exp_query
          pure (docs.foldl add_doc acc)) []
      let results := all_docs.map (fun p =>
        ({ relevance_score := mean p.2.2 } : RetrievalResult))
      let sorted := results.insertionSort (fun a b => b.relevance_score ≤ a.relevance_score)
      pure (sorted.take retrieval_k)

/-- Outcome of the cross-encoder inside rerank_results: the model may be
absent (self._reranker is None), predict may raise, or predict returns
one score per candidate pair. -/
inductive RerankOutcome
  | unavailable
  | predictError
  | scores (s : List ℚ)

/-- Embedding of AdvancedRAGService.rerank_results (services_advanced.py
lines 278 to 302).  With no candidates or no reranker the input list is
returned unchanged (no truncation).  When predict succeeds, each
candidate receives its score and the list is sorted descending by
(x.rerank_score or 0), which equals getD 0 since 0.0 is falsy; when
predict raises, the exception is logged and the input order kept; both
of those paths then truncate to the top rerank_k. -/
def rerank_results (outcome : RerankOutcome) (results : List RetrievalResult) :
    List RetrievalResult :=
  match outcome with
  | .unavailable => results
  | .predictError => results.take rerank_k
  | .scores s =>
      let scored := results.zipWith (fun r sc => { r with rerank_score := some sc }) s
      (scored.insertionSort
        (fun a b => b.rerank_score.getD 0 ≤ a.rerank_score.getD 0)).take rerank_k

/-- Environment of the retrieval-and-generation stage. -/
structure GenEnv where
  search : SearchEnv
  rerank : RerankOutcome
  generation : Except Unit String

/-- The user-visible response produced by the integrated pipeline. -/
inductive BotResponse
  | emergency
  | cached (content : String)
  | notFound
  | fromContext (content : String)
  | apology
deriving DecidableEq, Repr

structure RetrievalOut where
  response : BotResponse
  confidence : ℚ
  fallback_used : Bool
deriving Repr

/-- Embedding of IntegratedChatService._perform_rag_retrieval
(services_integrated.py lines 228 to 285): hybrid search, reranking,
confidence scoring, then either the not-found fallback (empty results or
confidence below the threshold) or context-grounded generation.  No
exception is caught here; index or generation errors propagate to the
top-level handler of generate_response. -/
def perform_rag_retrieval (env : GenEnv) (message_text : PyStr) :
    Except Unit RetrievalOut := do
  let raw_results ← hybrid_search env.search message_text
  let results := rerank_results env.rerank raw_results
  let confidence := calculate_confidence results
  if results = [] ∨ confidence < confidence_threshold then
    pure { response := .notFound, confidence := confidence, fallback_used := true }
  else do
    let content ← env.generation
    pure { response := .fromContext content, confidence := confidence,
           fallback_used := false }

/-- The response-selection step of AdvancedRAGService.generate_response
(services_advanced.py lines 362 to 374): whether the not-found fallback
is chosen and whether the lower-confidence disclaimer is appended to the
chosen response text. -/
structure AdvancedChoice where
  not_found_fallback : Bool
  disclaimer_appended : Bool
deriving DecidableEq, Repr

def advanced_select_response (results : List RetrievalResult) : AdvancedChoice :=
  let confidence := calculate_confidence results
  { not_found_fallback := decide (confidence < confidence_threshold) || results.isEmpty,
    disclaimer_appended := decide (confidence < 1/2) }

/-- Environment of one integrated generate_response call: the shared
response cache answer (rag_cache.get_cached_response) and the
retrieval-and-generation environment. -/
structure PipelineEnv where
  cached : Option CachedResponse
  gen : GenEnv

/-- Observable outcome of one integrated generate_response call: the
response, the recorded metrics fields the claims mention, which pipeline
stages ran, and whether cache_response was invoked. -/
structure PipelineResult where
  response : BotResponse
  fallback_used : Bool
  cache_hit : Bool
  cache_type : Option String
  confidence_score : ℚ
  cache_lookup_performed : Bool
  retrieval_performed : Bool
  cache_written : Bool
deriving Repr

/-- Embedding of IntegratedChatService.generate_response
(services_integrated.py lines 125 to 226): emergency check first, then
the shared-cache lookup, then the RAG retrieval; any exception escaping
the retrieval stage is caught by the top-level handler, which answers
with the generic apology and sets fallback_used; after a successful
retrieval the response is written to the shared cache exactly when it is
non-fallback with confidence above 0.6. -/
def integrated_generate_response (env : PipelineEnv) (message_text : PyStr) :
    PipelineResult :=
  if is_emergency_message message_text then
    { response := .emergency, fallback_used := false, cache_hit := false,
      cache_type := none, confidence_score := 0,
      cache_lookup_performed := false, retrieval_performed := false,
      cache_written := false }
  else
    match env.cached with
    | some cached_response =>
        { response := .cached cached_response.content, fallback_used := false,
          cache_hit := true,
          cache_type := some (cached_response.cache_type.getD "exact"),
          confidence_score := cached_response.confidence.getD (8/10),
          cache_lookup_performed := true, retrieval_performed := false,
          cache_written := false }
    | none =>
        match perform_rag_retrieval env.gen message_text with
        | .error _ =>
            { response := .apology, fallback_used := true, cache_hit := false,
              cache_type := none, confidence_score := 0,
              cache_lookup_performed := true, retrieval_performed := true,
              cache_written := false }
        | .ok out =>
            { response := out.response, fallback_used := out.fallback_used,
              cache_hit := false, cache_type := none,
              confidence_score := out.confidence,
              cache_lookup_performed := true, retrieval_performed := true,
              cache_written := !out.fallback_used && decide (6/10 < out.confidence) }

/-! ### Claim C10: emergency short-circuit -/

/-- Claim C10 (confirmed): for every incoming message containing an
emergency keyword, generate_response returns the canned emergency
response immediately: the shared-cache lookup is never performed, no
retrieval or reranking runs, and no cache entry is written. -/
theorem C10_theorem (env : PipelineEnv) (message_text : PyStr)
    (h : is_emergency_message message_text = true) :
    integrated_generate_response env message_text =
      { response := .emergency, fallback_used := false, cache_hit := false,
        cache_type := none, confidence_score := 0,
        cache_lookup_performed := false, retrieval_performed := false,
        cache_written := false } := by
  simp [integrated_generate_response, h]

/-- Claim C10, witness: a message mentioning chest pain takes the
emergency path regardless of the environment. -/
theorem C10_witness :
    is_emergency_message "I have Chest Pain today".toList = true ∧
    integrated_generate_response
      { cached := none,
        gen := { search := { local_cache := none, expanded_queries := [],
                             index := fun _ => Except.error () },
                 rerank := .unavailable, generation := Except.error () } }
      "I have Chest Pain today".toList =
      { response := .emergency, fallback_used := false, cache_hit := false,
        cache_type := none, confidence_score := 0,
        cache_lookup_performed := false, retrieval_performed := false,
        cache_written := false } :=
  ⟨by decide, C10_theorem _ "I have Chest Pain today".toList (by decide)⟩

/-! ### Claim C6: cache-write gate -/

/-- Claim C6 (confirmed): a cache entry is written after response
generation if and only if the retrieval stage ran and produced a
non-fallback response with confidence above 0.6; in particular a
fallback response (and likewise an emergency or cache-hit answer) is
never written to the cache.  Both parts are stated as closed boolean
equations over the pipeline result. -/
theorem C6_theorem (env : PipelineEnv) (message_text : PyStr) :
    (integrated_generate_response env message_text).cache_written =
      ((integrated_generate_response env message_text).retrieval_performed &&
       !(integrated_generate_response env message_text).fallback_used &&
       decide (6/10 < (integrated_generate_response env message_text).confidence_score)) ∧
    ((integrated_generate_response env message_text).fallback_used &&
      (integrated_generate_response env message_text).cache_written) = false := by
  unfold integrated_generate_response
  by_cases he : is_emergency_message message_text = true
  · simp [he]
  · simp only [Bool.not_eq_true] at he
    cases hc : env.cached with
    | some c => simp [he, hc]
    | none =>
        cases hr : perform_rag_retrieval env.gen message_text with
        | error e => simp [he, hc, hr]
        | ok out =>
            simp only [he, hc, hr, Bool.false_eq_true, if_false]
            constructor
            · cases out.fallback_used <;> simp
            · cases out.fallback_used <;> simp

/-! ### Claim C3: behaviour in the 0.5 to 0.7 confidence band -/

/-- Environment for the claim C3 counterexample: the local cache already
holds one candidate of relevance 0.55, no reranker, generation would
succeed if it were reached. -/
def c3_env : GenEnv :=
  { search := { local_cache := some [{ relevance_score := 11/20 }],
                expanded_queries := [], index := fun _ => Except.error () },
    rerank := .unavailable,
    generation := Except.ok "grounded answer" }

theorem c3_conf :
    calculate_confidence (rerank_results RerankOutcome.unavailable
      [{ relevance_score := 11/20 }]) = 11/20 := by
  norm_num [rerank_results, calculate_confidence, top_score, mean, variance,
    pyMin, pyMax]

/-- Claim C3, counterexample: a non-empty candidate list with computed
confidence 0.55 (strictly between 0.5 and 0.7) produces the not-found
fallback with fallback_used = true — not a context-grounded response —
and the services_advanced path appends no disclaimer there (the
disclaimer condition is confidence below 0.5). -/
theorem C3_counterexample :
    (1:ℚ)/2 < 11/20 ∧ (11:ℚ)/20 < 7/10 ∧
    perform_rag_retrieval c3_env "what is chemotherapy".toList =
      Except.ok { response := .notFound, confidence := 11/20, fallback_used := true } ∧
    advanced_select_response [{ relevance_score := 11/20 }] =
      { not_found_fallback := true, disclaimer_appended := false } := by
  refine ⟨by norm_num, by norm_num, ?_, ?_⟩
  · have h : calculate_confidence (rerank_results RerankOutcome.unavailable
        [{ relevance_score := 11/20 }]) < confidence_threshold := by
      rw [c3_conf]; norm_num [confidence_threshold]
    simp only [perform_rag_retrieval, hybrid_search, c3_env, bind, Except.bind]
    rw [if_pos (Or.inr h)]
    rw [c3_conf]
    rfl
  · have h1 : calculate_confidence [{ relevance_score := (11:ℚ)/20 }] = 11/20 := by
      have := c3_conf
      simpa [rerank_results] using this
    simp only [advanced_select_response, h1, confidence_threshold]
    simp only [AdvancedChoice.mk.injEq]
    constructor
    · rw [decide_eq_true (by norm_num : (11:ℚ)/20 < 7/10)]
      simp
    · rw [decide_eq_false (by norm_num : ¬((11:ℚ)/20 < 1/2))]

/-- Claim C3 (amended): for every query whose computed confidence is
strictly between 0.5 and 0.7, even with a non-empty candidate list, the
pipeline produces the not-found FALLBACK response and records
fallback_used = true (the confidence gate fires for every confidence
below 0.7); no disclaimer is involved in this band — the
services_advanced disclaimer is appended only when confidence is below
0.5, in which case the chosen response is already the fallback. -/
theorem C3_theorem (env : GenEnv) (msg : PyStr) (raw_results : List RetrievalResult)
    (hsearch : hybrid_search env.search msg = Except.ok raw_results)
    (h1 : 1/2 < calculate_confidence (rerank_results env.rerank raw_results))
    (h2 : calculate_confidence (rerank_results env.rerank raw_results) < 7/10)
    (h3 : rerank_results env.rerank raw_results ≠ []) :
    perform_rag_retrieval env msg =
      Except.ok { response := .notFound,
                  confidence := calculate_confidence (rerank_results env.rerank raw_results),
                  fallback_used := true } ∧
    advanced_select_response (rerank_results env.rerank raw_results) =
      { not_found_fallback := true, disclaimer_appended := false } := by
  have hth : calculate_confidence (rerank_results env.rerank raw_results) <
      confidence_threshold := by
    rw [confidence_threshold]; exact h2
  constructor
  · simp only [perform_rag_retrieval, hsearch, bind, Except.bind]
    rw [if_pos (Or.inr hth)]
    rfl
  · simp only [advanced_select_response]
    rw [decide_eq_true hth, decide_eq_false (not_lt.mpr h1.le)]
    simp

/-- Claim C3, witness: the amended statement applied to the concrete
0.55-confidence environment. -/
theorem C3_witness :
    hybrid_search c3_env.search "what is chemotherapy".toList =
      Except.ok [{ relevance_score := 11/20 }] ∧
    (1:ℚ)/2 < calculate_confidence
      (rerank_results RerankOutcome.unavailable [{ relevance_score := 11/20 }]) ∧
    perform_rag_retrieval c3_env "what is chemotherapy".toList =
      Except.ok { response := .notFound,
                  confidence := calculate_confidence
                    (rerank_results c3_env.rerank [{ relevance_score := 11/20 }]),
                  fallback_used := true } :=
  ⟨rfl, by rw [c3_conf]; norm_num,
   (C3_theorem c3_env "what is chemotherapy".toList [{ relevance_score := 11/20 }]
      rfl
      (by show (1:ℚ)/2 < calculate_confidence
            (rerank_results RerankOutcome.unavailable [{ relevance_score := 11/20 }])
          rw [c3_conf]; norm_num)
      (by show calculate_confidence
            (rerank_results RerankOutcome.unavailable [{ relevance_score := 11/20 }]) < 7/10
          rw [c3_conf]; norm_num)
      (by show rerank_results RerankOutcome.unavailable
            [({ relevance_score := 11/20 } : RetrievalResult)] ≠ []
          simp [rerank_results])).1⟩

/-! ### Claim C7: unreachable vector index -/

/-- Environment for the claim C7 counterexample: empty local cache, one
expanded query, vector index unreachable. -/
def c7_env : SearchEnv :=
  { local_cache := none, expanded_queries := ["xyznonsense12345".toList],
    index := fun _ => Except.error () }

/-- Claim C7, counterexample: with the vector index unreachable,
hybrid_search does NOT return an empty candidate list — it propagates
the exception (there is no try/except around the per-variant index
calls). -/
theorem C7_counterexample :
    hybrid_search c7_env "xyznonsense12345".toList = Except.error () ∧
    hybrid_search c7_env "xyznonsense12345".toList ≠ Except.ok [] := by
  have he : hybrid_search c7_env "xyznonsense12345".toList = Except.error () := rfl
  refine ⟨he, ?_⟩
  rw [he]
  intro h
  exact Except.noConfusion h

/-- Claim C7 (amended): if the first expanded query hits an unreachable
vector index, hybrid_search RAISES (propagates the index exception); the
top-level handler of the integrated generate_response then catches it
and answers with the generic apology, recording fallback_used = true and
writing nothing to the cache.  The empty-candidate path arises only when
the index succeeds with no results. -/
theorem C7_theorem (penv : PipelineEnv) (msg : PyStr) (q0 : PyStr) (qs : List PyStr)
    (e : Unit)
    (hnotem : is_emergency_message msg = false)
    (hcached : penv.cached = none)
    (hlocal : penv.gen.search.local_cache = none)
    (hexp : penv.gen.search.expanded_queries = q0 :: qs)
    (hidx : penv.gen.search.index q0 = Except.error e) :
    hybrid_search penv.gen.search msg = Except.error e ∧
    integrated_generate_response penv msg =
      { response := .apology, fallback_used := true, cache_hit := false,
        cache_type := none, confidence_score := 0,
        cache_lookup_performed := true, retrieval_performed := true,
        cache_written := false } := by
  have hs : hybrid_search penv.gen.search msg = Except.error e := by
    unfold hybrid_search
    rw [hlocal]
    simp only [hexp, List.foldlM, hidx]
    rfl
  refine ⟨hs, ?_⟩
  have hp : perform_rag_retrieval penv.gen msg = Except.error e := by
    unfold perform_rag_retrieval
    rw [hs]
    rfl
  unfold integrated_generate_response
  rw [hnotem]
  simp only [Bool.false_eq_true, if_false, hcached, hp]

/-- Claim C7, witness: the amended statement applied to the unreachable
index environment. -/
theorem C7_witness :
    is_emergency_message "xyznonsense12345".toList = false ∧
    integrated_generate_response
      { cached := none, gen := { search := c7_env, rerank := .unavailable,
                                 generation := Except.ok "unused" } }
      "xyznonsense12345".toList =
      { response := .apology, fallback_used := true, cache_hit := false,
        cache_type := none, confidence_score := 0,
        cache_lookup_performed := true, retrieval_performed := true,
        cache_written := false } :=
  ⟨by decide,
   (C7_theorem
      { cached := none, gen := { search := c7_env, rerank := .unavailable,
                                 generation := Except.ok "unused" } }
      "xyznonsense12345".toList "xyznonsense12345".toList [] ()
      (by decide) rfl rfl rfl rfl).2⟩

end MedicalPortal
